import Mathlib

/-!
# Verification of the backlash model (famura/blm)

Shallow embedding of `src/blm/backlash_model.py` — the `BacklashModel`
class with its step rule (`__call__`), parameter validation (`reset`,
`__init__`), derived boundary intersections (`z_lo`, `z_up`), the feature
machinery (`h`, `f_1`, `f_2`) and the iterative least-squares fitting
routine (`fit`).

Modelling conventions:
* numpy float arrays become `List ℚ` (exact rational arithmetic in place
  of IEEE floats; the claims under study are about the algebra and control
  flow, not rounding);
* a numpy scalar or a Python number passed through `np.atleast_1d` becomes
  a one-element list;
* the uninitialized state (`self._x_prev = None` when `x_init` is omitted)
  is an `Option`;
* a raised `ValueError` becomes an `Except.error`; for the mutating
  operations `reset` and `fit` the error also carries the object state at
  raise time, so that partial-mutation behaviour on error paths is
  faithfully recorded (Python `reset` assigns fields before validating);
* `bool(numpy_array)` — what Python's `if` applies to the elementwise
  comparison arrays in `__call__` — is `truthValue` below: the element for
  a one-element array, an error ("The truth value of an array with more
  than one element is ambiguous") for larger arrays;
* `np.linalg.lstsq` is an external library routine; `fit` is parameterized
  by an abstract solver of the same interface.  Where a claim depends on a
  concrete solver output, the output used is proved below to be the
  minimum-norm least-squares solution of the concrete system handed to the
  solver, which is what `np.linalg.lstsq` computes.
-/

/-- Elementwise combination of three equal-length arrays (numpy broadcasts
elementwise over same-shape operands; all uses in the claims have equal
shapes). -/
def zipWith3 (f : ℚ → ℚ → ℚ → ℚ) : List ℚ → List ℚ → List ℚ → List ℚ
  | a :: as, b :: bs, c :: cs => f a b c :: zipWith3 f as bs cs
  | _, _, _ => []

/-- Elementwise combination of four equal-length arrays. -/
def zipWith4 {α : Type} (f : ℚ → ℚ → ℚ → ℚ → α) :
    List ℚ → List ℚ → List ℚ → List ℚ → List α
  | a :: as, b :: bs, c :: cs, d :: ds => f a b c d :: zipWith4 f as bs cs ds
  | _, _, _, _ => []

/-- The state of a `BacklashModel` object: the four parameter arrays and the
memorized previous output `self._x_prev` (`none` while uninitialized). -/
structure BacklashModel where
  m_lo : List ℚ
  m_up : List ℚ
  c_lo : List ℚ
  c_up : List ℚ
  x_prev : Option (List ℚ)
deriving Repr, DecidableEq

/-- `z_lo` on a given state array: `self._x_prev / self.m_lo - self.c_lo`
(property `BacklashModel.z_lo`, lines 109-112). -/
def zLoOf (xp m_lo c_lo : List ℚ) : List ℚ :=
  zipWith3 (fun x m c => x / m - c) xp m_lo c_lo

/-- `z_up` on a given state array: `self._x_prev / self.m_up + self.c_up`
(property `BacklashModel.z_up`, lines 114-117). -/
def zUpOf (xp m_up c_up : List ℚ) : List ℚ :=
  zipWith3 (fun x m c => x / m + c) xp m_up c_up

/-- The derived quantity `z_lo` of the model (`none` while the state is
uninitialized, where Python would raise on `None / array`). -/
def BacklashModel.z_lo (m : BacklashModel) : Option (List ℚ) :=
  m.x_prev.map (fun xp => zLoOf xp m.m_lo m.c_lo)

/-- The derived quantity `z_up` of the model. -/
def BacklashModel.z_up (m : BacklashModel) : Option (List ℚ) :=
  m.x_prev.map (fun xp => zUpOf xp m.m_up m.c_up)

/-- The validation block at the end of `reset` (lines 99-107), returning the
message of the first failing check, `none` when all pass. -/
def invalidMsg (m : BacklashModel) : Option String :=
  if m.m_lo.any (fun v => v == 0) then some ("m_lo must not be zero!")
  else if m.m_up.any (fun v => v == 0) then some ("m_up must not be zero!")
  else if m.c_lo.any (fun v => decide (v < 0)) then some ("c_lo must be non-negative!")
  else if m.c_up.any (fun v => decide (v < 0)) then some ("c_up must be non-negative!")
  else none

/-- The "optionally set" block of `reset` (lines 87-97): each provided
argument overwrites its field, omitted arguments leave the field unchanged. -/
def applyUpdates (m : BacklashModel)
    (m_lo m_up c_lo c_up x_init : Option (List ℚ)) : BacklashModel :=
  { m_lo := m_lo.getD m.m_lo
    m_up := m_up.getD m.m_up
    c_lo := c_lo.getD m.c_lo
    c_up := c_up.getD m.c_up
    x_prev := match x_init with
      | some v => some v
      | none => m.x_prev }

/-- `BacklashModel.reset` (lines 70-107): apply the provided updates, then
validate the full current parameter set.  On a validation failure the error
carries the already-updated object (Python assigns the fields before the
checks run, so a failed reset leaves them assigned). -/
def BacklashModel.reset (m : BacklashModel)
    (m_lo m_up c_lo c_up x_init : Option (List ℚ)) :
    Except (String × BacklashModel) BacklashModel :=
  match invalidMsg (applyUpdates m m_lo m_up c_lo c_up x_init) with
  | some msg => Except.error (msg, applyUpdates m m_lo m_up c_lo c_up x_init)
  | none => Except.ok (applyUpdates m m_lo m_up c_lo c_up x_init)

/-- `BacklashModel.__init__` (lines 18-41): start from all-`None` fields and
call `reset` with the four parameters mandatory and `x_init` optional.
The all-`None` start is represented by empty parameter arrays (they are
always overwritten, since all four parameter arguments are `some`). -/
def BacklashModel.make (m_lo m_up c_lo c_up : List ℚ)
    (x_init : Option (List ℚ)) : Except (String × BacklashModel) BacklashModel :=
  BacklashModel.reset ⟨[], [], [], [], none⟩
    (some m_lo) (some m_up) (some c_lo) (some c_up) x_init

/-- Python truth-testing of a numpy boolean array, as applied by the two
`if`/`elif` conditions of `__call__`: a one-element array yields its
element; a larger array raises ValueError ("The truth value of an array
with more than one element is ambiguous"); numpy of the era pinned by this
repository evaluates an empty array as `False` (with a deprecation
warning). -/
def truthValue (l : List Bool) : Except String Bool :=
  match l with
  | [] => Except.ok false
  | [b] => Except.ok b
  | _ => Except.error ("The truth value of an array with more than one element is ambiguous.")

/-- `BacklashModel.__call__` (lines 43-64): the step function.  Computes
`z_lo`/`z_up` from the state before the call; if `u <= z_lo` the output is
`m_lo * (u + c_lo)` and becomes the new state; elif `u >= z_up` the output
is `m_up * (u - c_up)` and becomes the new state; else the previous state
is returned unchanged.  Errors: an uninitialized state (Python `None`
arithmetic raises TypeError), or truth-testing a multi-element comparison
array. -/
def BacklashModel.step (m : BacklashModel) (u : List ℚ) :
    Except String (List ℚ × BacklashModel) :=
  match m.x_prev with
  | none => Except.error ("unsupported operand type for NoneType")
  | some xp =>
    match truthValue (List.zipWith (fun a b => decide (a ≤ b)) u (zLoOf xp m.m_lo m.c_lo)) with
    | Except.error e => Except.error e
    | Except.ok true =>
      Except.ok (zipWith3 (fun ui ml cl => ml * (ui + cl)) u m.m_lo m.c_lo,
        { m with x_prev := some (zipWith3 (fun ui ml cl => ml * (ui + cl)) u m.m_lo m.c_lo) })
    | Except.ok false =>
      match truthValue (List.zipWith (fun a b => decide (b ≤ a)) u (zUpOf xp m.m_up m.c_up)) with
      | Except.error e => Except.error e
      | Except.ok true =>
        Except.ok (zipWith3 (fun ui mu cu => mu * (ui - cu)) u m.m_up m.c_up,
          { m with x_prev := some (zipWith3 (fun ui mu cu => mu * (ui - cu)) u m.m_up m.c_up) })
      | Except.ok false => Except.ok (xp, m)

/-- `BacklashModel.h` (lines 119-125): elementwise step indicator, 0 where
the entry is positive, 1 where it is nonpositive. -/
def BacklashModel.h (s : List ℚ) : List ℚ :=
  s.map (fun v => if 0 < v then 0 else 1)

/-- `BacklashModel.f_1` (lines 127-129):
`h((m_lo * u + m_lo * c_lo - x_prev) / m_lo)`, elementwise. -/
def BacklashModel.f_1 (m : BacklashModel) (u xp : List ℚ) : List ℚ :=
  BacklashModel.h (zipWith4 (fun ui xi ml cl => (ml * ui + ml * cl - xi) / ml) u xp m.m_lo m.c_lo)

/-- `BacklashModel.f_2` (lines 131-133):
`h((x_prev - m_up * u + m_up * c_up) / m_up)`, elementwise. -/
def BacklashModel.f_2 (m : BacklashModel) (u xp : List ℚ) : List ℚ :=
  BacklashModel.h (zipWith4 (fun ui xi mu cu => (xi - mu * ui + mu * cu) / mu) u xp m.m_up m.c_up)

/-! ## The fitting routine

During `fit`, the data arrays `u`, `x`, `x_prev` have numpy shape
`[num_samples, 1]` (the class docstring: "The current implementation only
support one-dimensional data"), modelled as `List ℚ` of the samples, and
the parameters are one-element arrays broadcast across the samples,
modelled as scalars.  The scalar forms of `h`, `f_1`, `f_2` below are the
broadcasts of the array forms above. -/

/-- Scalar form of `BacklashModel.h`. -/
def hS (s : ℚ) : ℚ := if 0 < s then 0 else 1

/-- Scalar form of `BacklashModel.f_1` (parameters broadcast over one sample). -/
def f1S (ml cl ui xi : ℚ) : ℚ := hS ((ml * ui + ml * cl - xi) / ml)

/-- Scalar form of `BacklashModel.f_2` (parameters broadcast over one sample). -/
def f2S (mu cu ui xi : ℚ) : ℚ := hS ((xi - mu * ui + mu * cu) / mu)

/-- The feature matrix of one `fit` epoch (lines 156-158): per sample the
row `[u*f_1(u,x_prev), f_1(u,x_prev), u*f_2(u,x_prev), -f_2(u,x_prev)]`,
built with the current parameter estimates `(ml, mu, cl, cu)`. -/
def fitPhi (ml mu cl cu : ℚ) (u xp : List ℚ) : List (List ℚ) :=
  List.zipWith (fun ui xpi =>
    [ui * f1S ml cl ui xpi, f1S ml cl ui xpi, ui * f2S mu cu ui xpi, -(f2S mu cu ui xpi)]) u xp

/-- The target matrix of one `fit` epoch (line 161):
`x - x_prev * (1 - f_1(u,x_prev)) * (1 - f_2(u,x_prev))`. -/
def fitTargets (ml mu cl cu : ℚ) (u x xp : List ℚ) : List ℚ :=
  zipWith3 (fun ui xi xpi =>
    xi - xpi * (1 - f1S ml cl ui xpi) * (1 - f2S mu cu ui xpi)) u x xp

/-- One epoch of `fit` (lines 154-169): build the feature and target
matrices with the current estimates, hand them to the least-squares solver
for `θ`, and update the estimates to
`(m_lo, m_up, c_lo, c_up) = (θ 0, θ 2, θ 1 / θ 0, θ 3 / θ 2)`. -/
def fitEpoch (solver : List (List ℚ) → List ℚ → ℚ × ℚ × ℚ × ℚ)
    (u x xp : List ℚ) : ℚ × ℚ × ℚ × ℚ → ℚ × ℚ × ℚ × ℚ
  | (ml, mu, cl, cu) =>
    match solver (fitPhi ml mu cl cu u xp) (fitTargets ml mu cl cu u x xp) with
    | (t0, t1, t2, t3) => (t0, t2, t1 / t0, t3 / t2)

/-- The epoch loop of `fit`: exactly `n` iterations of `fitEpoch`, no
convergence check. -/
def fitIter (solver : List (List ℚ) → List ℚ → ℚ × ℚ × ℚ × ℚ)
    (u x xp : List ℚ) : ℕ → ℚ × ℚ × ℚ × ℚ → ℚ × ℚ × ℚ × ℚ
  | 0, p => p
  | n + 1, p => fitIter solver u x xp n (fitEpoch solver u x xp p)

/-- `BacklashModel.fit` (lines 135-169), parameterized by the least-squares
solver (`np.linalg.lstsq`).  Verify the three shapes are equal (else raise
the shape-mismatch ValueError, before any mutation); index `x_prev[0]`
(IndexError on an empty data set); `reset` the parameters to the seed
values `m_lo = m_up = 1`, `c_lo = c_up = 1e-2` and the state to
`x_prev[0]`; then run the epoch loop and store the final estimates (as
one-element arrays, the shape `np.linalg.lstsq` rows have for the
one-dimensional data this class supports).  No validation runs after the
epoch loop. -/
def BacklashModel.fit (m : BacklashModel)
    (solver : List (List ℚ) → List ℚ → ℚ × ℚ × ℚ × ℚ)
    (u x xp : List ℚ) (num_epoch : ℕ) :
    Except (String × BacklashModel) BacklashModel :=
  if u.length = x.length ∧ x.length = xp.length then
    match xp with
    | [] => Except.error ("index 0 is out of bounds for axis 0 with size 0", m)
    | xp0 :: _ =>
      match BacklashModel.reset m (some [1]) (some [1])
          (some [1/100]) (some [1/100]) (some [xp0]) with
      | Except.error e => Except.error e
      | Except.ok m1 =>
        match fitIter solver u x xp num_epoch (1, 1, 1/100, 1/100) with
        | (ml, mu, cl, cu) =>
          Except.ok { m1 with m_lo := [ml], m_up := [mu], c_lo := [cl], c_up := [cu] }
  else Except.error ("The shapes of u, x, and x_prev must be equal!", m)


/-! ## Evaluation lemmas for the single-channel step -/

/-- Closed form of one single-channel step: for a model holding one channel,
the step function is the three-way decision rule on scalars. -/
theorem step_one (ml mu cl cu x0 u : ℚ) :
    BacklashModel.step ⟨[ml], [mu], [cl], [cu], some [x0]⟩ [u] =
      if u ≤ x0 / ml - cl then
        Except.ok ([ml * (u + cl)], ⟨[ml], [mu], [cl], [cu], some [ml * (u + cl)]⟩)
      else if x0 / mu + cu ≤ u then
        Except.ok ([mu * (u - cu)], ⟨[ml], [mu], [cl], [cu], some [mu * (u - cu)]⟩)
      else
        Except.ok ([x0], ⟨[ml], [mu], [cl], [cu], some [x0]⟩) := by
  by_cases h1 : u ≤ x0 / ml - cl
  · simp [BacklashModel.step, zLoOf, zUpOf, zipWith3, truthValue, h1]
  · by_cases h2 : x0 / mu + cu ≤ u
    · simp [BacklashModel.step, zLoOf, zUpOf, zipWith3, truthValue, h1, h2]
    · simp [BacklashModel.step, zLoOf, zUpOf, zipWith3, truthValue, h1, h2]

/-! ## C1: single-channel step semantics -/

/-- C1: for a single-channel model with valid parameters and initialized
state, `step(u)` computes `z_lo = x_prev/m_lo - c_lo` and
`z_up = x_prev/m_up + c_up` from the state before the call; if `u ≤ z_lo`
it returns `m_lo*(u + c_lo)` and stores it as the new state; else if
`u ≥ z_up` it returns `m_up*(u - c_up)` and stores it; else it returns the
previous stored state and leaves the state unchanged. -/
theorem step_single_channel_decision (ml mu cl cu x0 u : ℚ)
    (hml : ml ≠ 0) (hmu : mu ≠ 0) (hcl : 0 ≤ cl) (hcu : 0 ≤ cu) :
    BacklashModel.step ⟨[ml], [mu], [cl], [cu], some [x0]⟩ [u] =
      if u ≤ x0 / ml - cl then
        Except.ok ([ml * (u + cl)], ⟨[ml], [mu], [cl], [cu], some [ml * (u + cl)]⟩)
      else if x0 / mu + cu ≤ u then
        Except.ok ([mu * (u - cu)], ⟨[ml], [mu], [cl], [cu], some [mu * (u - cu)]⟩)
      else
        Except.ok ([x0], ⟨[ml], [mu], [cl], [cu], some [x0]⟩) :=
  step_one ml mu cl cu x0 u

/-- Witness for C1 at `m_lo = 2, m_up = 3, c_lo = 1, c_up = 1, x_prev = 0,
u = 5`. -/
theorem step_single_channel_decision_witness :
    BacklashModel.step ⟨[2], [3], [1], [1], some [0]⟩ [5] =
      if (5:ℚ) ≤ 0 / 2 - 1 then
        Except.ok ([2 * (5 + 1)], ⟨[2], [3], [1], [1], some [2 * (5 + 1)]⟩)
      else if (0:ℚ) / 3 + 1 ≤ 5 then
        Except.ok ([3 * (5 - 1)], ⟨[2], [3], [1], [1], some [3 * (5 - 1)]⟩)
      else
        Except.ok ([0], ⟨[2], [3], [1], [1], some [0]⟩) :=
  step_single_channel_decision 2 3 1 1 0 5 (by norm_num) (by norm_num)
    (by norm_num) (by norm_num)

/-! ## C9: the concrete boundary example -/

/-- C9: with `m_lo = m_up = 1`, `c_lo = c_up = 0`, `x_init = 0`, `step(5)`
returns 5 (upper boundary, since `5 ≥ z_up = 0`), the following `step(-5)`
returns -5 (lower boundary, since `-5 ≤ z_lo = 5`), and the following
`step(0)` returns the previous output -5 if 0 falls strictly inside the
interval `(z_lo, z_up)` computed from the updated state.  (With state -5
that interval is `(-5, -5)`, which 0 does not fall inside: the conditional
final part holds vacuously; the actual `step(0)` takes the upper branch.) -/
theorem step_boundary_concrete_case :
    ((0:ℚ) / 1 + 0 ≤ 5 ∧
      BacklashModel.step ⟨[1], [1], [0], [0], some [0]⟩ [5] =
        Except.ok ([5], ⟨[1], [1], [0], [0], some [5]⟩)) ∧
    ((-5:ℚ) ≤ 5 / 1 - 0 ∧
      BacklashModel.step ⟨[1], [1], [0], [0], some [5]⟩ [-5] =
        Except.ok ([-5], ⟨[1], [1], [0], [0], some [-5]⟩)) ∧
    ((-5:ℚ) / 1 - 0 < 0 ∧ (0:ℚ) < (-5) / 1 + 0 →
      BacklashModel.step ⟨[1], [1], [0], [0], some [-5]⟩ [0] =
        Except.ok ([-5], ⟨[1], [1], [0], [0], some [-5]⟩)) := by
  refine ⟨⟨by norm_num, ?_⟩, ⟨by norm_num, ?_⟩, fun h => absurd h.2 (by norm_num)⟩
  · rw [step_one]
    norm_num
  · rw [step_one]
    norm_num

/-! ## C10: idempotence of the step function -/

/-- Counterexample to C10 as stated: with the valid parameters
`m_lo = 1, m_up = 2, c_lo = c_up = 0` and state 0, `step(5)` takes the
upper branch and returns 10, but the immediately repeated `step(5)` takes
the lower branch (the updated `z_lo` is 10 and `5 ≤ 10`) and returns 5. -/
theorem step_not_idempotent_cex :
    BacklashModel.step ⟨[1], [2], [0], [0], some [0]⟩ [5] =
      Except.ok ([10], ⟨[1], [2], [0], [0], some [10]⟩) ∧
    BacklashModel.step ⟨[1], [2], [0], [0], some [10]⟩ [5] =
      Except.ok ([5], ⟨[1], [2], [0], [0], some [5]⟩) ∧
    ([10] : List ℚ) ≠ [5] := by
  refine ⟨?_, ?_, by norm_num⟩
  · rw [step_one]
    norm_num
  · rw [step_one]
    norm_num

/-- C10 as amended: the repeat of a lower-boundary step again satisfies
`u ≤ z_lo` (the updated `z_lo` equals `u`), and a dead-zone step changes
nothing, so in both cases the second call returns the same output and
state.  After an upper-boundary step the updated `z_up` equals `u`, but
the second call checks the lower branch first; idempotence therefore also
requires that the repeat does not satisfy the lower condition against the
updated state (`u ≤ m_up*(u - c_up)/m_lo - c_lo`), which can happen for
valid parameters and then yields a different output. -/
theorem step_conditionally_idempotent (ml mu cl cu x0 u : ℚ)
    (hml : ml ≠ 0) (hmu : mu ≠ 0)
    (hnc : ¬ (x0 / ml - cl < u ∧ x0 / mu + cu ≤ u ∧ u ≤ mu * (u - cu) / ml - cl)) :
    ∀ y m1, BacklashModel.step ⟨[ml], [mu], [cl], [cu], some [x0]⟩ [u] = Except.ok (y, m1) →
      BacklashModel.step m1 [u] = Except.ok (y, m1) := by
  intro y m1 hstep
  rw [step_one] at hstep
  by_cases h1 : u ≤ x0 / ml - cl
  · rw [if_pos h1] at hstep
    simp only [Except.ok.injEq, Prod.mk.injEq] at hstep
    obtain ⟨hy, hm⟩ := hstep
    subst hy hm
    have hz : ml * (u + cl) / ml - cl = u := by
      field_simp
    rw [step_one, hz, if_pos le_rfl]
  · by_cases h2 : x0 / mu + cu ≤ u
    · rw [if_neg h1, if_pos h2] at hstep
      simp only [Except.ok.injEq, Prod.mk.injEq] at hstep
      obtain ⟨hy, hm⟩ := hstep
      subst hy hm
      have hc1 : ¬ (u ≤ mu * (u - cu) / ml - cl) := fun hc =>
        hnc ⟨not_le.mp h1, h2, hc⟩
      have hz : mu * (u - cu) / mu + cu = u := by
        field_simp
      rw [step_one, hz, if_neg hc1, if_pos le_rfl]
    · rw [if_neg h1, if_neg h2] at hstep
      simp only [Except.ok.injEq, Prod.mk.injEq] at hstep
      obtain ⟨hy, hm⟩ := hstep
      subst hy hm
      rw [step_one, if_neg h1, if_neg h2]

/-- Witness for the amended C10 at `m_lo = m_up = 1`, `c_lo = c_up = 1`,
state 0, `u = 5` (an upper-boundary step: output 4, then 4 again). -/
theorem step_conditionally_idempotent_witness :
    BacklashModel.step ⟨[1], [1], [1], [1], some [4]⟩ [5] =
      Except.ok ([4], ⟨[1], [1], [1], [1], some [4]⟩) :=
  step_conditionally_idempotent 1 1 1 1 0 5 (by norm_num) (by norm_num)
    (by norm_num) [4] ⟨[1], [1], [1], [1], some [4]⟩
    (by rw [step_one]; norm_num)

/-! ## C7: the feature functions reproduce the step decision regions -/

/-- C7: for every parameter set with `m_lo ≠ 0` and `m_up ≠ 0`, every input
`u` and every previous output `x_prev`, `f_1(u, x_prev)` is 1 exactly when
`u ≤ x_prev/m_lo - c_lo` (else 0), and `f_2(u, x_prev)` is 1 exactly when
`u ≥ x_prev/m_up + c_up` (else 0) — the lower- and upper-boundary regimes
of the step rule with the same inequality directions, regardless of the
signs of the slopes (the division by the slope inside `h` cancels its
sign). -/
theorem features_match_step_regions (ml mu cl cu u x0 : ℚ)
    (hml : ml ≠ 0) (hmu : mu ≠ 0) :
    BacklashModel.f_1 ⟨[ml], [mu], [cl], [cu], none⟩ [u] [x0] =
      [if u ≤ x0 / ml - cl then 1 else 0] ∧
    BacklashModel.f_2 ⟨[ml], [mu], [cl], [cu], none⟩ [u] [x0] =
      [if x0 / mu + cu ≤ u then 1 else 0] := by
  constructor
  · simp only [BacklashModel.f_1, BacklashModel.h, zipWith4, List.map]
    have hA : (ml * u + ml * cl - x0) / ml = u + cl - x0 / ml := by
      field_simp
      ring
    simp only [hA]
    by_cases hle : u ≤ x0 / ml - cl
    · rw [if_neg (not_lt.mpr (by linarith)), if_pos hle]
    · rw [if_pos (by push_neg at hle; linarith), if_neg hle]
  · simp only [BacklashModel.f_2, BacklashModel.h, zipWith4, List.map]
    have hA : (x0 - mu * u + mu * cu) / mu = x0 / mu - u + cu := by
      field_simp
      ring
    simp only [hA]
    by_cases hle : x0 / mu + cu ≤ u
    · rw [if_neg (not_lt.mpr (by linarith)), if_pos hle]
    · rw [if_pos (by push_neg at hle; linarith), if_neg hle]

/-- Witness for C7 at a negative lower slope: `m_lo = -2`, `m_up = 3`,
`c_lo = 1`, `c_up = 2`, `u = 1`, `x_prev = 4`. -/
theorem features_match_step_regions_witness :
    (BacklashModel.f_1 ⟨[-2], [3], [1], [2], none⟩ [1] [4] =
      [if (1:ℚ) ≤ 4 / (-2) - 1 then 1 else 0]) ∧
    (BacklashModel.f_2 ⟨[-2], [3], [1], [2], none⟩ [1] [4] =
      [if (4:ℚ) / 3 + 2 ≤ 1 then 1 else 0]) :=
  features_match_step_regions (-2) 3 1 2 1 4 (by norm_num) (by norm_num)

/-! ## C8: dead-zone latching over a sequence of steps -/

/-- A finite sequence of single-channel step calls, collecting the outputs
and threading the mutated state (the caller loop of the test harness and
demo). -/
def stepAll (m : BacklashModel) : List ℚ → Except String (List (List ℚ) × BacklashModel)
  | [] => Except.ok ([], m)
  | u :: rest =>
    match m.step [u] with
    | Except.error e => Except.error e
    | Except.ok (y, m1) =>
      match stepAll m1 rest with
      | Except.error e => Except.error e
      | Except.ok (ys, m2) => Except.ok (y :: ys, m2)

/-- C8: for a valid single-channel model, a sequence of inputs that all lie
strictly between the model's current `z_lo` and `z_up` at the time of each
call (the state, and hence the dead zone, never moves during such a
sequence, so this is equivalent to lying inside the initial dead zone)
makes every call return the state held when the sequence began, and leaves
the stored state unchanged by every call. -/
theorem dead_zone_latching (ml mu cl cu x0 : ℚ) (us : List ℚ)
    (hml : ml ≠ 0) (hmu : mu ≠ 0) (hcl : 0 ≤ cl) (hcu : 0 ≤ cu)
    (hin : ∀ u ∈ us, x0 / ml - cl < u ∧ u < x0 / mu + cu) :
    stepAll ⟨[ml], [mu], [cl], [cu], some [x0]⟩ us =
      Except.ok (us.map (fun _ => [x0]), ⟨[ml], [mu], [cl], [cu], some [x0]⟩) := by
  induction us with
  | nil => rfl
  | cons u rest ih =>
    obtain ⟨h1, h2⟩ := hin u (List.mem_cons_self u rest)
    have hstep : BacklashModel.step ⟨[ml], [mu], [cl], [cu], some [x0]⟩ [u] =
        Except.ok ([x0], ⟨[ml], [mu], [cl], [cu], some [x0]⟩) := by
      rw [step_one, if_neg (not_le.mpr h1), if_neg (not_le.mpr h2)]
    have hrest := ih (fun v hv => hin v (List.mem_cons_of_mem u hv))
    simp [stepAll, hstep, hrest]

/-- Witness for C8 with `m_lo = m_up = 1`, `c_lo = c_up = 1`, state 0 and
the input sequence `[1/2, -1/2, 0]`, all strictly inside `(-1, 1)`. -/
theorem dead_zone_latching_witness :
    stepAll ⟨[1], [1], [1], [1], some [0]⟩ [1/2, -1/2, 0] =
      Except.ok ([[0], [0], [0]], ⟨[1], [1], [1], [1], some [0]⟩) := by
  have h := dead_zone_latching 1 1 1 1 0 [1/2, -1/2, 0] (by norm_num) (by norm_num)
    (by norm_num) (by norm_num) (by intro u hu; fin_cases hu <;> norm_num)
  simpa using h

/-! ## C6: multi-channel stepping -/

/-- Truth-testing a comparison array of two or more elements raises. -/
theorem truthValue_of_two_le (l : List Bool) (h : 2 ≤ l.length) :
    truthValue l =
      Except.error ("The truth value of an array with more than one element is ambiguous.") := by
  rcases l with _ | ⟨a, _ | ⟨b, rest⟩⟩
  · simp at h
  · simp at h
  · rfl

/-- `zipWith3` over three lists of one common length keeps that length. -/
theorem zipWith3_length_eq (f : ℚ → ℚ → ℚ → ℚ) :
    ∀ (a b c : List ℚ), a.length = b.length → b.length = c.length →
      (zipWith3 f a b c).length = a.length
  | [], [], [], _, _ => rfl
  | [], [], _ :: _, _, hb => by simp at hb
  | [], _ :: _, _, ha, _ => by simp at ha
  | _ :: _, [], _, ha, _ => by simp at ha
  | _ :: _, _ :: _, [], _, hb => by simp at hb
  | a :: as, b :: bs, c :: cs, ha, hb => by
    rw [zipWith3, List.length_cons, List.length_cons,
      zipWith3_length_eq f as bs cs (by simpa using ha) (by simpa using hb)]

/-- Counterexample to C6 as stated: a two-channel model with valid
per-channel parameters, stepped on the two-element input `[5, 5]`, does not
return a two-element output: truth-testing the elementwise comparison
`u <= z_lo` raises the ambiguous-truth-value ValueError. -/
theorem step_multichannel_cex :
    BacklashModel.step ⟨[1, 1], [1, 1], [0, 0], [0, 0], some [0, 0]⟩ [5, 5] =
      Except.error ("The truth value of an array with more than one element is ambiguous.") := by
  rfl

/-- C6 as amended: the decision rule of `step` is not applied elementwise
per channel.  For every model whose parameter and state arrays hold
`n ≥ 2` channels and every `n`-element input, `step` raises the
ambiguous-truth-value error of truth-testing a multi-element boolean
array: multi-channel stepping is unsupported (the class docstring notes
the implementation only supports one-dimensional data). -/
theorem step_multichannel_raises (mlo mup clo cup xp u : List ℚ) (n : ℕ)
    (hxp : xp.length = n) (hml : mlo.length = n) (hmu : mup.length = n)
    (hcl : clo.length = n) (hcu : cup.length = n) (hu : u.length = n) (hn : 2 ≤ n) :
    BacklashModel.step ⟨mlo, mup, clo, cup, some xp⟩ u =
      Except.error ("The truth value of an array with more than one element is ambiguous.") := by
  have hz : (zLoOf xp mlo clo).length = n := by
    rw [zLoOf, zipWith3_length_eq _ xp mlo clo (hxp.trans hml.symm) (hml.trans hcl.symm), hxp]
  have hcmp : 2 ≤ (List.zipWith (fun a b => decide (a ≤ b)) u (zLoOf xp mlo clo)).length := by
    rw [List.length_zipWith, hu, hz, Nat.min_self]
    exact hn
  simp only [BacklashModel.step]
  rw [truthValue_of_two_le _ hcmp]

/-- Witness for the amended C6 on a concrete two-channel model. -/
theorem step_multichannel_raises_witness :
    BacklashModel.step ⟨[1, 2], [3, 4], [0, 0], [0, 0], some [1, 1]⟩ [7, 8] =
      Except.error ("The truth value of an array with more than one element is ambiguous.") :=
  step_multichannel_raises [1, 2] [3, 4] [0, 0] [0, 0] [1, 1] [7, 8] 2
    rfl rfl rfl rfl rfl rfl (by norm_num)

/-! ## C4 and C2: validation in reset -/

/-- The first validation check of `reset` fires exactly when 0 occurs in the
array. -/
theorem any_eq_zero_iff (l : List ℚ) :
    l.any (fun v => v == 0) = true ↔ (0:ℚ) ∈ l := by
  simp [List.any_eq_true]

/-- The offset checks of `reset` fire exactly when a negative entry occurs. -/
theorem any_neg_iff (l : List ℚ) :
    l.any (fun v => decide (v < 0)) = true ↔ ∃ v ∈ l, v < 0 := by
  simp [List.any_eq_true]

/-- The validation block passes exactly when no slope entry is zero and no
offset entry is negative. -/
theorem invalidMsg_eq_none_iff (m : BacklashModel) :
    invalidMsg m = none ↔
      ¬((0:ℚ) ∈ m.m_lo ∨ (0:ℚ) ∈ m.m_up ∨
        (∃ v ∈ m.c_lo, v < 0) ∨ (∃ v ∈ m.c_up, v < 0)) := by
  unfold invalidMsg
  split_ifs with h1 h2 h3 h4 <;>
    simp_all [any_eq_zero_iff, any_neg_iff]

/-- C4: `reset` applies every provided argument to the stored fields and
then validates the full resulting parameter set: it raises the validation
error if and only if the merged parameters contain a zero slope entry or a
negative offset entry (so a partial reset that supplies only valid fields
still fails when an old invalid field remains); on success the new model is
exactly the merged one; and omitted arguments leave every field
unchanged. -/
theorem reset_applies_updates_then_validates (m : BacklashModel)
    (a b c d e : Option (List ℚ)) :
    ((∃ s mf, BacklashModel.reset m a b c d e = Except.error (s, mf)) ↔
      ((0:ℚ) ∈ (applyUpdates m a b c d e).m_lo ∨
        (0:ℚ) ∈ (applyUpdates m a b c d e).m_up ∨
        (∃ v ∈ (applyUpdates m a b c d e).c_lo, v < 0) ∨
        (∃ v ∈ (applyUpdates m a b c d e).c_up, v < 0))) ∧
    (∀ mf, BacklashModel.reset m a b c d e = Except.ok mf →
      mf = applyUpdates m a b c d e) ∧
    applyUpdates m none none none none none = m := by
  refine ⟨?_, ?_, rfl⟩
  · rcases hmsg : invalidMsg (applyUpdates m a b c d e) with _ | msg
    · constructor
      · rintro ⟨s, mf, h⟩
        rw [BacklashModel.reset, hmsg] at h
        exact absurd h (by simp)
      · intro h
        exact absurd h ((invalidMsg_eq_none_iff _).mp hmsg)
    · constructor
      · intro _
        by_contra hnot
        rw [(invalidMsg_eq_none_iff _).mpr hnot] at hmsg
        exact Option.noConfusion hmsg
      · intro _
        exact ⟨msg, applyUpdates m a b c d e, by rw [BacklashModel.reset, hmsg]⟩
  · intro mf h
    rcases hmsg : invalidMsg (applyUpdates m a b c d e) with _ | msg
    · rw [BacklashModel.reset, hmsg] at h
      simpa using h.symm
    · rw [BacklashModel.reset, hmsg] at h
      exact absurd h (by simp)

/-- C2 as amended: after every successful `reset` (and hence every
successful construction, which delegates to `reset` with all four
parameters supplied), every element of `m_lo` and `m_up` is non-zero and
every element of `c_lo` and `c_up` is non-negative, and a violating
parameter set makes `reset` fail.  `fit`, however, installs the final
least-squares estimates without re-validating them (only its seed
initialization goes through `reset`), so a fitted model can hold a zero
slope or negative offset — see the counterexample. -/
theorem reset_ok_parameters_valid (m m2 : BacklashModel)
    (a b c d e : Option (List ℚ))
    (h : BacklashModel.reset m a b c d e = Except.ok m2) :
    (∀ v ∈ m2.m_lo, v ≠ 0) ∧ (∀ v ∈ m2.m_up, v ≠ 0) ∧
    (∀ v ∈ m2.c_lo, 0 ≤ v) ∧ (∀ v ∈ m2.c_up, 0 ≤ v) := by
  rcases hmsg : invalidMsg (applyUpdates m a b c d e) with _ | msg
  · rw [BacklashModel.reset, hmsg] at h
    have hm2 : applyUpdates m a b c d e = m2 := by simpa using h
    subst hm2
    have hn := (invalidMsg_eq_none_iff _).mp hmsg
    push_neg at hn
    exact ⟨fun v hv h0 => hn.1 (h0 ▸ hv), fun v hv h0 => hn.2.1 (h0 ▸ hv),
      hn.2.2.1, hn.2.2.2⟩
  · rw [BacklashModel.reset, hmsg] at h
    exact absurd h (by simp)

/-- Witness for the amended C2: a partial reset that replaces `m_lo` on a
valid model succeeds and the resulting parameters are valid. -/
theorem reset_ok_parameters_valid_witness :
    (∀ v ∈ ([2] : List ℚ), v ≠ 0) ∧ (∀ v ∈ ([1] : List ℚ), v ≠ 0) ∧
    (∀ v ∈ ([0] : List ℚ), (0:ℚ) ≤ v) ∧ (∀ v ∈ ([3] : List ℚ), (0:ℚ) ≤ v) :=
  reset_ok_parameters_valid ⟨[1], [1], [0], [3], none⟩ ⟨[2], [1], [0], [3], none⟩
    (some [2]) none none none none (by rfl)

/-! ## C5: shape mismatch in fit is raised before any mutation -/

/-- C5: whenever the three data arrays do not all have the same shape,
`fit` raises the shape-mismatch error, and the model carried at raise time
is exactly the model before the call — no parameter or state field was
mutated (the shape check precedes the seed reset and the epoch loop). -/
theorem fit_shape_mismatch_atomic
    (solver : List (List ℚ) → List ℚ → ℚ × ℚ × ℚ × ℚ)
    (m : BacklashModel) (u x xp : List ℚ) (n : ℕ)
    (h : ¬(u.length = x.length ∧ x.length = xp.length)) :
    BacklashModel.fit m solver u x xp n =
      Except.error ("The shapes of u, x, and x_prev must be equal!", m) := by
  unfold BacklashModel.fit
  rw [if_neg h]

/-- Witness for C5: a trivial solver, data of lengths 1, 2, 2. -/
theorem fit_shape_mismatch_atomic_witness :
    BacklashModel.fit ⟨[1], [1], [0], [0], some [0]⟩ (fun _ _ => (0, 0, 0, 0))
        [1] [1, 2] [1, 2] 3 =
      Except.error ("The shapes of u, x, and x_prev must be equal!",
        ⟨[1], [1], [0], [0], some [0]⟩) :=
  fit_shape_mismatch_atomic (fun _ _ => (0, 0, 0, 0))
    ⟨[1], [1], [0], [0], some [0]⟩ [1] [1, 2] [1, 2] 3 (by norm_num)

/-! ## Evaluation of a successful fit -/

/-- A successful `fit` on equal-shape, non-empty data: the shape check
passes, the seed reset succeeds (the seed values 1 and 1/100 are valid),
the state becomes `[x_prev[0]]`, and the final parameters are the result of
exactly `n` epoch iterations from the seed estimates. -/
theorem fit_eval (solver : List (List ℚ) → List ℚ → ℚ × ℚ × ℚ × ℚ)
    (m : BacklashModel) (u x xp : List ℚ) (n : ℕ) (x0 : ℚ) (rest : List ℚ)
    (hxp : xp = x0 :: rest)
    (hlen : u.length = x.length ∧ x.length = xp.length) :
    BacklashModel.fit m solver u x xp n =
      Except.ok ⟨[(fitIter solver u x xp n (1, 1, 1/100, 1/100)).1],
        [(fitIter solver u x xp n (1, 1, 1/100, 1/100)).2.1],
        [(fitIter solver u x xp n (1, 1, 1/100, 1/100)).2.2.1],
        [(fitIter solver u x xp n (1, 1, 1/100, 1/100)).2.2.2],
        some [x0]⟩ := by
  subst hxp
  have hseed : invalidMsg ⟨[1], [1], [(100:ℚ)⁻¹], [(100:ℚ)⁻¹], some [x0]⟩ = none := by
    rw [invalidMsg_eq_none_iff]
    norm_num
  unfold BacklashModel.fit
  rw [if_pos hlen]
  unfold BacklashModel.reset
  simp [hseed, applyUpdates]

/-! ## C2: fit installs unvalidated parameters

`np.linalg.lstsq` returns the minimum-norm least-squares solution of the
linear system it is given.  The following specification pins that down for
the 4-column systems `fit` produces, so that the concrete solver value used
in the counterexample can be certified rather than assumed. -/

/-- Dot product of one 4-entry feature row with a coefficient vector. -/
def rowDot (r : List ℚ) (t : ℚ × ℚ × ℚ × ℚ) : ℚ :=
  match r with
  | [a, b, c, d] => a * t.1 + b * t.2.1 + c * t.2.2.1 + d * t.2.2.2
  | _ => 0

/-- Sum of squared residuals of a coefficient vector on a system. -/
def residualSq (phi : List (List ℚ)) (y : List ℚ) (t : ℚ × ℚ × ℚ × ℚ) : ℚ :=
  (List.zipWith (fun r yi => (rowDot r t - yi) ^ 2) phi y).sum

/-- Squared euclidean norm of a coefficient vector. -/
def normSq (t : ℚ × ℚ × ℚ × ℚ) : ℚ :=
  t.1 ^ 2 + t.2.1 ^ 2 + t.2.2.1 ^ 2 + t.2.2.2 ^ 2

/-- `t` is the minimum-norm least-squares solution of the system
`(phi, y)`: it minimizes the residual, and among all residual minimizers it
has the smallest norm.  This is the contract of `np.linalg.lstsq`. -/
def IsMinNormLstsq (phi : List (List ℚ)) (y : List ℚ) (t : ℚ × ℚ × ℚ × ℚ) : Prop :=
  (∀ s, residualSq phi y t ≤ residualSq phi y s) ∧
  (∀ s, residualSq phi y s = residualSq phi y t → normSq t ≤ normSq s)

/-- The value `np.linalg.lstsq` returns on the one system the C2
counterexample feeds it (proved below to be its minimum-norm least-squares
solution). -/
def lstsqCex : List (List ℚ) → List ℚ → ℚ × ℚ × ℚ × ℚ :=
  fun _ _ => (0, 0, 1, 0)

/-- `(0, 0, 1, 0)` is the minimum-norm least-squares solution of the system
with rows `[0,0,1,-1]`, `[0,0,2,-1]` and targets `[1,2]`: its residual is
zero, and any zero-residual vector has `c = 1`, `d = 0`, hence norm at
least 1. -/
theorem lstsqCex_minimum_norm :
    IsMinNormLstsq [[0, 0, 1, -1], [0, 0, 2, -1]] [1, 2] (0, 0, 1, 0) := by
  have eval_t : residualSq [[0, 0, 1, -1], [0, 0, 2, -1]] [1, 2] (0, 0, 1, 0) = 0 := by
    norm_num [residualSq, rowDot]
  constructor
  · rintro ⟨a, b, c, d⟩
    have eval_s : residualSq [[0, 0, 1, -1], [0, 0, 2, -1]] [1, 2] (a, b, c, d) =
        (c - d - 1) ^ 2 + (2 * c - d - 2) ^ 2 := by
      simp [residualSq, rowDot]
      ring
    rw [eval_t, eval_s]
    positivity
  · rintro ⟨a, b, c, d⟩ h
    have eval_s : residualSq [[0, 0, 1, -1], [0, 0, 2, -1]] [1, 2] (a, b, c, d) =
        (c - d - 1) ^ 2 + (2 * c - d - 2) ^ 2 := by
      simp [residualSq, rowDot]
      ring
    rw [eval_s, eval_t] at h
    have hc : c - d - 1 = 0 := by
      nlinarith [sq_nonneg (c - d - 1), sq_nonneg (2 * c - d - 2)]
    have hd : 2 * c - d - 2 = 0 := by
      nlinarith [sq_nonneg (c - d - 1), sq_nonneg (2 * c - d - 2)]
    have hc1 : c = 1 := by linarith
    have hd0 : d = 0 := by linarith
    subst hc1
    subst hd0
    have evn_t : normSq (0, 0, 1, 0) = 1 := by norm_num [normSq]
    have evn_s : normSq (a, b, 1, 0) = a ^ 2 + b ^ 2 + 1 := by
      norm_num [normSq]
    rw [evn_t, evn_s]
    nlinarith [sq_nonneg a, sq_nonneg b]

/-- Counterexample to C2 as stated: starting from a valid model, one epoch
of `fit` on the data `u = [1, 2]`, `x = [1, 2]`, `x_prev = [0, 0]` builds
the feature matrix `[[0,0,1,-1],[0,0,2,-1]]` and targets `[1,2]` (all
samples sit in the upper regime under the seed estimates, so the two
`f_1` columns vanish); the minimum-norm least-squares solution of that
system is `θ = (0, 0, 1, 0)`, and `fit` installs `m_lo = θ[0] = 0` without
any validation: the fitted model holds a zero element in `m_lo`. -/
theorem fit_installs_unvalidated_parameters_cex :
    fitPhi 1 1 (1/100) (1/100) [1, 2] [0, 0] = [[0, 0, 1, -1], [0, 0, 2, -1]] ∧
    fitTargets 1 1 (1/100) (1/100) [1, 2] [1, 2] [0, 0] = [1, 2] ∧
    IsMinNormLstsq [[0, 0, 1, -1], [0, 0, 2, -1]] [1, 2] (0, 0, 1, 0) ∧
    BacklashModel.fit ⟨[1], [1], [0], [0], some [0]⟩ lstsqCex [1, 2] [1, 2] [0, 0] 1 =
      Except.ok ⟨[0], [1], [0], [0], some [0]⟩ ∧
    (0:ℚ) ∈ (⟨[0], [1], [0], [0], some [0]⟩ : BacklashModel).m_lo := by
  refine ⟨?_, ?_, lstsqCex_minimum_norm, ?_, by simp⟩
  · norm_num [fitPhi, f1S, f2S, hS]
  · norm_num [fitTargets, zipWith3, f1S, f2S, hS]
  · rw [fit_eval lstsqCex ⟨[1], [1], [0], [0], some [0]⟩ [1, 2] [1, 2] [0, 0] 1 0 [0]
      rfl (by norm_num)]
    norm_num [fitIter, fitEpoch, lstsqCex]

/-! ## C3: the structure of the fitting loop -/

/-- The fitting epoch as the specification words it: build the feature
matrix by concatenating the four columns `u*f1(u,x_prev)`, `f1(u,x_prev)`,
`u*f2(u,x_prev)`, `-f2(u,x_prev)` computed with the current estimates,
build the target `x - x_prev*(1-f1)*(1-f2)`, solve the least-squares
problem for `θ`, and update `m_lo = θ[0]`, `c_lo = θ[1]/θ[0]`,
`m_up = θ[2]`, `c_up = θ[3]/θ[2]`.  The estimate tuple is
`(m_lo, m_up, c_lo, c_up)`. -/
def fitEpochSpec (solver : List (List ℚ) → List ℚ → ℚ × ℚ × ℚ × ℚ)
    (u x xp : List ℚ) : ℚ × ℚ × ℚ × ℚ → ℚ × ℚ × ℚ × ℚ
  | (ml, mu, cl, cu) =>
    match
      solver
        (zipWith4 (fun c1 c2 c3 c4 => [c1, c2, c3, c4])
          (List.zipWith (fun ui v => ui * v) u
            (List.zipWith (fun ui xpi => f1S ml cl ui xpi) u xp))
          (List.zipWith (fun ui xpi => f1S ml cl ui xpi) u xp)
          (List.zipWith (fun ui v => ui * v) u
            (List.zipWith (fun ui xpi => f2S mu cu ui xpi) u xp))
          ((List.zipWith (fun ui xpi => f2S mu cu ui xpi) u xp).map (fun v => -v)))
        (zipWith4 (fun xi xpi v1 v2 => xi - xpi * (1 - v1) * (1 - v2)) x xp
          (List.zipWith (fun ui xpi => f1S ml cl ui xpi) u xp)
          (List.zipWith (fun ui xpi => f2S mu cu ui xpi) u xp))
    with
    | (t0, t1, t2, t3) => (t0, t2, t1 / t0, t3 / t2)

/-- Exactly `n` iterations of the specification epoch, no convergence
check. -/
def fitIterSpec (solver : List (List ℚ) → List ℚ → ℚ × ℚ × ℚ × ℚ)
    (u x xp : List ℚ) : ℕ → ℚ × ℚ × ℚ × ℚ → ℚ × ℚ × ℚ × ℚ
  | 0, p => p
  | n + 1, p => fitIterSpec solver u x xp n (fitEpochSpec solver u x xp p)

/-- The column-wise feature matrix of the specification equals the row-wise
one of the implementation. -/
theorem fitPhi_from_columns (ml mu cl cu : ℚ) :
    ∀ u xp : List ℚ,
      zipWith4 (fun c1 c2 c3 c4 => [c1, c2, c3, c4])
        (List.zipWith (fun ui v => ui * v) u
          (List.zipWith (fun ui xpi => f1S ml cl ui xpi) u xp))
        (List.zipWith (fun ui xpi => f1S ml cl ui xpi) u xp)
        (List.zipWith (fun ui v => ui * v) u
          (List.zipWith (fun ui xpi => f2S mu cu ui xpi) u xp))
        ((List.zipWith (fun ui xpi => f2S mu cu ui xpi) u xp).map (fun v => -v)) =
      fitPhi ml mu cl cu u xp
  | [], xp => rfl
  | _ :: _, [] => rfl
  | u :: us, xpi :: xps => by
    simp only [List.zipWith, List.map, zipWith4, fitPhi, List.cons.injEq]
    exact ⟨trivial, fitPhi_from_columns ml mu cl cu us xps⟩

/-- The column-wise target vector of the specification equals the one of
the implementation. -/
theorem fitTargets_from_columns (ml mu cl cu : ℚ) :
    ∀ u x xp : List ℚ,
      zipWith4 (fun xi xpi v1 v2 => xi - xpi * (1 - v1) * (1 - v2)) x xp
        (List.zipWith (fun ui xpi => f1S ml cl ui xpi) u xp)
        (List.zipWith (fun ui xpi => f2S mu cu ui xpi) u xp) =
      fitTargets ml mu cl cu u x xp
  | [], x, xp => by cases x <;> cases xp <;> rfl
  | _ :: _, [], xp => by cases xp <;> rfl
  | _ :: _, _ :: _, [] => rfl
  | u :: us, xi :: xs, xpi :: xps => by
    simp only [List.zipWith, zipWith4, fitTargets, zipWith3, List.cons.injEq]
    exact ⟨trivial, fitTargets_from_columns ml mu cl cu us xs xps⟩

/-- One specification epoch computes exactly what one implementation epoch
computes. -/
theorem fitEpochSpec_eq_fitEpoch (solver : List (List ℚ) → List ℚ → ℚ × ℚ × ℚ × ℚ)
    (u x xp : List ℚ) (p : ℚ × ℚ × ℚ × ℚ) :
    fitEpochSpec solver u x xp p = fitEpoch solver u x xp p := by
  obtain ⟨ml, mu, cl, cu⟩ := p
  have h1 := fitPhi_from_columns ml mu cl cu u xp
  have h2 := fitTargets_from_columns ml mu cl cu u x xp
  simp only [fitEpochSpec, fitEpoch, h1, h2]

/-- C3: on equal-shape non-empty data, `fit` first sets
`m_lo = m_up = 1`, `c_lo = c_up = 1/100` and the state to `x_prev[0]`,
then performs exactly `num_epoch` iterations of the described epoch (no
convergence check), and afterwards the parameters hold the final estimates
while the state still equals `[x_prev[0]]`. -/
theorem fit_seeds_then_iterates_epochs
    (solver : List (List ℚ) → List ℚ → ℚ × ℚ × ℚ × ℚ) (m : BacklashModel)
    (u x xp : List ℚ) (n : ℕ) (x0 : ℚ) (rest : List ℚ)
    (hxp : xp = x0 :: rest)
    (hlen : u.length = x.length ∧ x.length = xp.length) :
    BacklashModel.fit m solver u x xp n =
      Except.ok ⟨[(fitIterSpec solver u x xp n (1, 1, 1/100, 1/100)).1],
        [(fitIterSpec solver u x xp n (1, 1, 1/100, 1/100)).2.1],
        [(fitIterSpec solver u x xp n (1, 1, 1/100, 1/100)).2.2.1],
        [(fitIterSpec solver u x xp n (1, 1, 1/100, 1/100)).2.2.2],
        some [x0]⟩ := by
  have hiter : ∀ k p, fitIterSpec solver u x xp k p = fitIter solver u x xp k p := by
    intro k
    induction k with
    | zero => intro p; rfl
    | succ k ih =>
      intro p
      rw [fitIterSpec, fitIter, fitEpochSpec_eq_fitEpoch, ih]
  rw [fit_eval solver m u x xp n x0 rest hxp hlen, hiter]

/-- Witness for C3: one epoch on the data `u = [1]`, `x = [2]`,
`x_prev = [3]` with a solver returning `θ = (2, 3, 4, 5)`, giving the
updated parameters `(2, 4, 3/2, 5/4)` and the state `[3]`. -/
theorem fit_seeds_then_iterates_epochs_witness :
    BacklashModel.fit ⟨[1], [1], [0], [0], some [0]⟩ (fun _ _ => (2, 3, 4, 5))
        [1] [2] [3] 1 =
      Except.ok ⟨[2], [4], [3/2], [5/4], some [3]⟩ := by
  rw [fit_seeds_then_iterates_epochs (fun _ _ => (2, 3, 4, 5))
    ⟨[1], [1], [0], [0], some [0]⟩ [1] [2] [3] 1 3 [] rfl (by norm_num)]
  norm_num [fitIterSpec, fitEpochSpec]
